import Mathlib

/-!
Verification of the `sec_dev` administrative scripts of the ragflow repository.

Shallow embedding of the two source files:
  * `sec_dev/user_admin_operation.py` — `UserAdmin`: password encryption,
    registration + token flow, database-backed listing, detail lookup,
    cascading delete with best-effort rollback;
  * `sec_dev/sdk_client.py` — `RAGFlowSDKClient`: construction contract and
    listing pass-through.

External effects (the RSA primitive, HTTP endpoints, the ORM-backed database,
console and files) are modelled explicitly: RSA as a fallible oracle passed as
a parameter, HTTP outcomes as an environment record, the database as a record
of row lists, console/file side effects as returned traces.  Byte strings are
`List Nat` with values below 256.
-/

namespace RagflowSecDev

/-! ### Base64 over byte lists

`base64.b64encode` / `b64decode` as used by `encrypt_password`
(`user_admin_operation.py` lines 88-93): bytes in, ASCII byte values out,
`61` is the pad character `=`. -/

/-- The base64 alphabet: sextet value (0..63) to ASCII code. -/
def b64EncChar (n : Nat) : Nat :=
  if n < 26 then 65 + n
  else if n < 52 then 97 + (n - 26)
  else if n < 62 then 48 + (n - 52)
  else if n = 62 then 43
  else 47

/-- Inverse alphabet: ASCII code back to sextet value. -/
def b64DecChar (c : Nat) : Nat :=
  if 65 ≤ c ∧ c ≤ 90 then c - 65
  else if 97 ≤ c ∧ c ≤ 122 then 26 + (c - 97)
  else if 48 ≤ c ∧ c ≤ 57 then 52 + (c - 48)
  else if c = 43 then 62
  else if c = 47 then 63
  else 0

/-- Standard base64 encoding of a byte list, with `=` (61) padding. -/
def b64Encode : List Nat → List Nat
  | [] => []
  | [a] => [b64EncChar (a / 4), b64EncChar (a % 4 * 16), 61, 61]
  | [a, b] => [b64EncChar (a / 4), b64EncChar (a % 4 * 16 + b / 16),
               b64EncChar (b % 16 * 4), 61]
  | a :: b :: c :: rest =>
      b64EncChar (a / 4) :: b64EncChar (a % 4 * 16 + b / 16) ::
      b64EncChar (b % 16 * 4 + c / 64) :: b64EncChar (c % 64) :: b64Encode rest

/-- Standard base64 decoding (pad-aware), the server-side inverse. -/
def b64Decode : List Nat → List Nat
  | c1 :: c2 :: c3 :: c4 :: rest =>
      if c3 = 61 then [b64DecChar c1 * 4 + b64DecChar c2 / 16]
      else if c4 = 61 then
        [b64DecChar c1 * 4 + b64DecChar c2 / 16,
         b64DecChar c2 % 16 * 16 + b64DecChar c3 / 4]
      else
        (b64DecChar c1 * 4 + b64DecChar c2 / 16) ::
        (b64DecChar c2 % 16 * 16 + b64DecChar c3 / 4) ::
        (b64DecChar c3 % 4 * 64 + b64DecChar c4) :: b64Decode rest
  | _ => []

/-! ### `UserAdmin.encrypt_password` (lines 78-96)

The RSA PKCS#1 v1.5 primitive lives in an external library; it is modelled as
a fallible oracle `rsaEnc` on byte lists (`importKey`/`encrypt` may raise, in
which case the `except` branch returns `None`). -/

/-- `UserAdmin.encrypt_password`: base64-encode the UTF-8 password bytes,
RSA-encrypt that text, base64-encode the ciphertext; any failure gives
`none` instead of an exception. -/
def encrypt_password (rsaEnc : List Nat → Option (List Nat))
    (password : List Nat) : Option (List Nat) :=
  match rsaEnc (b64Encode password) with
  | some ct => some (b64Encode ct)
  | none => none

/-- The matching server-side inverse: base64-decode the transmitted value,
RSA-decrypt with the private key, base64-decode the plaintext. -/
def server_decrypt (rsaDec : List Nat → Option (List Nat))
    (transmitted : List Nat) : Option (List Nat) :=
  match rsaDec (b64Decode transmitted) with
  | some m => some (b64Decode m)
  | none => none

/-! ### `UserAdmin.register_user_and_get_api_token` (lines 113-162)

HTTP outcomes are modelled as an environment: the liveness probe result
(`check_server_status`), the outcome of `_register_user` (None on encryption
or request failure) and of `_get_api_token`.  The function returns its result
together with the list of steps it attempted, in order. -/

/-- One step of the registration flow. -/
inductive RegStep where
  | probe
  | register
  | token
deriving DecidableEq

/-- The `data` dict of a successful `/v1/user/register` response, restricted
to the fields the flow reads. -/
structure UserInfo where
  id : String
  nickname : String
  email : String
  create_time : Nat
  access_token : String
deriving DecidableEq

/-- Outcomes of the three external calls the flow makes. -/
structure RegEnv where
  serverOk : Bool
  registerResult : Option UserInfo
  tokenResult : Option String

/-- The dict returned by `register_user_and_get_api_token`: the partial-success
shape has no `tenant_id`/`success` keys (modelled `none`/`false`) and a
human-readable `message`; the complete shape has no `message`. -/
structure RegResult where
  user : UserInfo
  api_token : Option String
  message : Option String
  tenant_id : Option String
  success : Bool
deriving DecidableEq

/-- The message of the partial-success result (line 144). -/
def tokenFailMsg : String := "用户注册成功，但API token获取失败"

/-- `UserAdmin.register_user_and_get_api_token`: probe, register, request a
token, each step gated on the previous; returns the result and the trace of
attempted steps. -/
def register_user_and_get_api_token (env : RegEnv) :
    Option RegResult × List RegStep :=
  if env.serverOk = false then (none, [RegStep.probe])
  else
    match env.registerResult with
    | none => (none, [RegStep.probe, RegStep.register])
    | some ui =>
      match env.tokenResult with
      | none =>
          (some { user := ui, api_token := none, message := some tokenFailMsg,
                  tenant_id := none, success := false },
           [RegStep.probe, RegStep.register, RegStep.token])
      | some tok =>
          (some { user := ui, api_token := some tok, message := none,
                  tenant_id := some ui.id, success := true },
           [RegStep.probe, RegStep.register, RegStep.token])

/-! ### `UserAdmin.create_test_user` (lines 383-422) -/

/-- A JSON file written by `create_test_user`: name and dumped content. -/
structure FileWrite where
  fname : String
  content : RegResult
deriving DecidableEq

/-- `UserAdmin.create_test_user` for a given suffix (generated or supplied):
runs the registration flow and, when the result exists and has `success`
set, writes `ragflow_user_<suffix>.json` with the full result and prints the
API token.  Returns (result, files written, API-token values printed). -/
def create_test_user (env : RegEnv) (suffix : String) :
    Option RegResult × List FileWrite × List (Option String) :=
  match (register_user_and_get_api_token env).1 with
  | some r =>
      if r.success then
        (some r, [⟨"ragflow_user_" ++ suffix ++ ".json", r⟩], [r.api_token])
      else (some r, [], [])
  | none => (none, [], [])

/-! ### Database model

Row shapes restricted to the fields the admin tool reads
(`User`, `Tenant`, `UserTenant`, `TenantLLM` of `api.db.db_models`). -/

/-- A `User` row. -/
structure UserRow where
  id : String
  nickname : String
  email : String
  status : String
  is_superuser : Bool
  login_channel : String
  last_login_time : Nat
  create_time : Nat
  update_time : Nat
deriving DecidableEq

/-- A `Tenant` row. -/
structure TenantRow where
  id : String
  name : String
  llm_id : String
  embd_id : String
deriving DecidableEq

/-- A `UserTenant` membership row. -/
structure UTRow where
  id : String
  user_id : String
  tenant_id : String
  role : String
  invited_by : String
deriving DecidableEq

/-- A `TenantLLM` model-configuration row. -/
structure TenantLLMRow where
  tenant_id : String
  llm_name : String
deriving DecidableEq

/-- The four tables the admin tool touches. -/
structure DBState where
  users : List UserRow
  tenants : List TenantRow
  user_tenants : List UTRow
  tenant_llms : List TenantLLMRow
deriving DecidableEq

/-! ### `UserAdmin.list_users` (lines 218-257) -/

/-- One entry of the list returned by `list_users`. -/
structure UserListEntry where
  id : String
  nickname : String
  email : String
  status : String
  is_superuser : Bool
  login_channel : String
deriving DecidableEq

/-- `UserAdmin.list_users`: `User.select()` with no pagination; an
uninitialized database or an empty result yields `[]`. -/
def list_users (dbInit : Bool) (db : DBState) : List UserListEntry :=
  if dbInit = false then []
  else if db.users.isEmpty then []
  else db.users.map (fun u =>
    { id := u.id, nickname := u.nickname, email := u.email, status := u.status,
      is_superuser := u.is_superuser, login_channel := u.login_channel })

/-! ### `UserAdmin.get_user_details` (lines 259-307) -/

/-- `UserAdmin.get_user_details`: first matching `User` row, or `none` with a
"user does not exist" report (the returned Bool) when no row matches. -/
def get_user_details (dbInit : Bool) (db : DBState) (uid : String) :
    Option UserRow × Bool :=
  if dbInit = false then (none, false)
  else
    match db.users.find? (fun u => u.id == uid) with
    | none => (none, true)
    | some u => (some u, false)

/-! ### `UserAdmin._rollback_user_registration` (lines 359-381)

Each of the four deletes sits in its own `try`/`except Exception: pass`; an
injected fault makes that one delete raise (leaving its table unchanged)
while the others still run. -/

/-- One of the four sub-deletes, in source order. -/
inductive SubDelete where
  | user
  | tenant
  | userTenant
  | tenantLLM
deriving DecidableEq

/-- Injected faults: `true` means that sub-delete raises. -/
structure Faults where
  fUser : Bool
  fTenant : Bool
  fUserTenant : Bool
  fTenantLLM : Bool

/-- The membership sub-delete: query rows with `tenant_id = uid` and delete
the row whose `id` is the first match's (`u[0].id`); no match deletes
nothing. -/
def deleteFirstMembership (uid : String) (uts : List UTRow) : List UTRow :=
  match uts.filter (fun ut => ut.tenant_id == uid) with
  | [] => uts
  | r :: _ => uts.filter (fun ut => ut.id != r.id)

/-- `UserAdmin._rollback_user_registration`: four best-effort deletes in
order, each failure swallowed; returns the new state and the trace of
attempted sub-deletes. -/
def rollback_user_registration (f : Faults) (uid : String) (db : DBState) :
    DBState × List SubDelete :=
  let db1 := if f.fUser then db
    else { db with users := db.users.filter (fun u => u.id != uid) }
  let db2 := if f.fTenant then db1
    else { db1 with tenants := db1.tenants.filter (fun t => t.id != uid) }
  let db3 := if f.fUserTenant then db2
    else { db2 with user_tenants := deleteFirstMembership uid db2.user_tenants }
  let db4 := if f.fTenantLLM then db3
    else { db3 with tenant_llms := db3.tenant_llms.filter (fun m => m.tenant_id != uid) }
  (db4, [SubDelete.user, SubDelete.tenant, SubDelete.userTenant, SubDelete.tenantLLM])

/-! ### `UserAdmin.delete_user` (lines 309-357) -/

/-- Python whitespace for `str.strip()`: space, tab, newline, carriage
return, vertical tab, form feed. -/
def isPySpace (c : Char) : Bool :=
  c == ' ' || c == '\t' || c == '\n' || c == '\r' ||
  c == Char.ofNat 11 || c == Char.ofNat 12

/-- `str.strip()`: drop whitespace from both ends. -/
def pyStrip (s : String) : String :=
  ⟨((s.data.dropWhile isPySpace).reverse.dropWhile isPySpace).reverse⟩

/-- `UserAdmin.delete_user`: look the user up, and when `confirm` is set
compare the `.strip()`-ed interactive input against the literal `DELETE`
(line 331); then run the rollback and re-query existence of the `User` and
`Tenant` rows to report success.  Returns (reported result, final state,
attempted sub-deletes). -/
def delete_user (dbInit : Bool) (f : Faults) (confirm : Bool)
    (confirmInput : String) (uid : String) (db : DBState) :
    Bool × DBState × List SubDelete :=
  if dbInit = false then (false, db, [])
  else
    match (get_user_details dbInit db uid).1 with
    | none => (false, db, [])
    | some _ =>
      if confirm && pyStrip confirmInput != "DELETE" then (false, db, [])
      else
        let rb := rollback_user_registration f uid db
        let user_exists := rb.1.users.any (fun u => u.id == uid)
        let tenant_exists := rb.1.tenants.any (fun t => t.id == uid)
        (!user_exists && !tenant_exists, rb.1, rb.2)

/-! ### `RAGFlowSDKClient` (`sdk_client.py`) -/

/-- The constructed client: stripped base URL and the token. -/
structure SDKClient where
  base_url : String
  api_token : String
deriving DecidableEq

/-- `str.rstrip('/')`: drop trailing `/` characters. -/
def rstripSlashes (s : String) : String :=
  ⟨(s.data.reverse.dropWhile (fun c => c == '/')).reverse⟩

/-- `RAGFlowSDKClient.__init__`: `base_url` defaults to
`http://localhost:9380` when absent; a missing or empty `api_token` raises
`ValueError` (modelled `none`); otherwise the client holds the
`/`-right-stripped base URL and the token. -/
def RAGFlowSDKClient_init (base_url : Option String) (api_token : Option String) :
    Option SDKClient :=
  if api_token.getD "" = "" then none
  else some { base_url := rstripSlashes (base_url.getD "http://localhost:9380"),
              api_token := api_token.getD "" }

/-- `RAGFlowSDKClient.list_datasets`: forwards `page`, `page_size` and `name`
unchanged to `rag.list_datasets` (the oracle), returns its list, re-raises
its error. -/
def list_datasets (remote : Nat → Nat → Option String → Except String (List String))
    (page : Nat) (page_size : Nat) (name : Option String) :
    Except String (List String) :=
  match remote page page_size name with
  | Except.ok ds => Except.ok ds
  | Except.error e => Except.error e

/-! ### Base64 round-trip lemmas -/

theorem b64DecChar_b64EncChar (n : Nat) (h : n < 64) :
    b64DecChar (b64EncChar n) = n := by
  unfold b64EncChar b64DecChar
  split_ifs <;> omega

theorem b64EncChar_ne_pad (n : Nat) (h : n < 64) : b64EncChar n ≠ 61 := by
  unfold b64EncChar
  split_ifs <;> omega

theorem b64Decode_b64Encode (l : List Nat) (h : ∀ b ∈ l, b < 256) :
    b64Decode (b64Encode l) = l := by
  induction l using b64Encode.induct with
  | case1 => rfl
  | case2 a =>
      have ha : a < 256 := h a (by simp)
      have d1 := b64DecChar_b64EncChar (a / 4) (by omega)
      have d2 := b64DecChar_b64EncChar (a % 4 * 16) (by omega)
      simp only [b64Encode, b64Decode, d1, d2, if_true, List.cons.injEq, and_true]
      omega
  | case3 a b =>
      have ha : a < 256 := h a (by simp)
      have hb : b < 256 := h b (by simp)
      have d1 := b64DecChar_b64EncChar (a / 4) (by omega)
      have d2 := b64DecChar_b64EncChar (a % 4 * 16 + b / 16) (by omega)
      have d3 := b64DecChar_b64EncChar (b % 16 * 4) (by omega)
      have n3 := b64EncChar_ne_pad (b % 16 * 4) (by omega)
      simp only [b64Encode, b64Decode, d1, d2, d3, n3, if_true, if_false,
        ite_false, ite_true, List.cons.injEq, and_true]
      omega
  | case4 a b c rest ih =>
      have ha : a < 256 := h a (by simp)
      have hb : b < 256 := h b (by simp)
      have hc : c < 256 := h c (by simp)
      have hrest : ∀ x ∈ rest, x < 256 := by
        intro x hx; exact h x (by simp [hx])
      have d1 := b64DecChar_b64EncChar (a / 4) (by omega)
      have d2 := b64DecChar_b64EncChar (a % 4 * 16 + b / 16) (by omega)
      have d3 := b64DecChar_b64EncChar (b % 16 * 4 + c / 64) (by omega)
      have d4 := b64DecChar_b64EncChar (c % 64) (by omega)
      have n3 := b64EncChar_ne_pad (b % 16 * 4 + c / 64) (by omega)
      have n4 := b64EncChar_ne_pad (c % 64) (by omega)
      simp only [b64Encode, b64Decode, d1, d2, d3, d4, n3, n4, if_true, if_false,
        ite_false, ite_true, ih hrest, List.cons.injEq, and_true]
      omega

/-! ### Claim theorems -/

/-- C1: for every plaintext password, `encrypt_password` produces its result
by exactly the procedure base64(UTF-8 bytes) → RSA-PKCS#1-v1.5 encrypt →
base64(ciphertext), and when the RSA step fails it returns `none` instead of
raising. -/
theorem C1_encrypt_password_procedure
    (rsaEnc : List Nat → Option (List Nat)) (pw : List Nat) :
    (∀ ct, rsaEnc (b64Encode pw) = some ct →
      encrypt_password rsaEnc pw = some (b64Encode ct)) ∧
    (rsaEnc (b64Encode pw) = none → encrypt_password rsaEnc pw = none) := by
  constructor
  · intro ct hct
    simp [encrypt_password, hct]
  · intro hn
    simp [encrypt_password, hn]

theorem C1_witness :
    encrypt_password (fun x => some x) [104, 105] =
      some (b64Encode (b64Encode [104, 105])) ∧
    encrypt_password (fun _ => none) [104, 105] = none :=
  ⟨(C1_encrypt_password_procedure (fun x => some x) [104, 105]).1 _ rfl,
   (C1_encrypt_password_procedure (fun _ => none) [104, 105]).2 rfl⟩

/-- C2: for every plaintext password, the server-side inverse
(base64-decode, RSA-decrypt with the matching private key, base64-decode)
applied to the output of `encrypt_password` yields the original password. -/
theorem C2_password_roundtrip
    (rsaEnc rsaDec : List Nat → Option (List Nat))
    (hkeys : ∀ x c, rsaEnc x = some c → rsaDec c = some x)
    (hbytes : ∀ x c, rsaEnc x = some c → ∀ b ∈ c, b < 256)
    (pw : List Nat) (hpw : ∀ b ∈ pw, b < 256)
    (ct : List Nat) (henc : encrypt_password rsaEnc pw = some ct) :
    server_decrypt rsaDec ct = some pw := by
  unfold encrypt_password at henc
  cases hc : rsaEnc (b64Encode pw) with
  | none => rw [hc] at henc; exact absurd henc (by simp)
  | some c =>
      rw [hc] at henc
      have hct : ct = b64Encode c := by
        simpa using henc.symm
      subst hct
      unfold server_decrypt
      rw [b64Decode_b64Encode c (hbytes _ _ hc), hkeys _ _ hc]
      simp [b64Decode_b64Encode pw hpw]

theorem C2_witness :
    server_decrypt
      (fun c => if c = [0, 1] then some (b64Encode [112]) else none)
      (b64Encode [0, 1]) = some [112] :=
  C2_password_roundtrip
    (fun x => if x = b64Encode [112] then some [0, 1] else none)
    (fun c => if c = [0, 1] then some (b64Encode [112]) else none)
    (by
      intro x c h
      have h' : (if x = b64Encode [112] then some [0, 1] else none) = some c := h
      by_cases hx : x = b64Encode [112]
      · subst hx
        rw [if_pos rfl] at h'
        injection h' with h2
        subst h2
        simp
      · rw [if_neg hx] at h'
        exact absurd h' (by simp))
    (by
      intro x c h
      have h' : (if x = b64Encode [112] then some [0, 1] else none) = some c := h
      by_cases hx : x = b64Encode [112]
      · subst hx
        rw [if_pos rfl] at h'
        injection h' with h2
        subst h2
        decide
      · rw [if_neg hx] at h'
        exact absurd h' (by simp))
    [112] (by decide)
    (b64Encode [0, 1]) (by decide)

/-- C3: in `register_user_and_get_api_token` each step is gated on the
previous: a failed liveness probe means no registration attempt and a `none`
result; a failed registration means no token attempt and a `none` result; a
failed token step alone yields a partial-success result (user data, `none`
api_token, human-readable message) rather than a structured error. -/
theorem C3_register_flow_gating (env : RegEnv) :
    (env.serverOk = false →
      (register_user_and_get_api_token env).1 = none ∧
      RegStep.register ∉ (register_user_and_get_api_token env).2 ∧
      RegStep.token ∉ (register_user_and_get_api_token env).2) ∧
    (env.registerResult = none →
      (register_user_and_get_api_token env).1 = none ∧
      RegStep.token ∉ (register_user_and_get_api_token env).2) ∧
    (∀ ui, env.serverOk = true → env.registerResult = some ui →
      env.tokenResult = none →
      (register_user_and_get_api_token env).1 =
        some { user := ui, api_token := none, message := some tokenFailMsg,
               tenant_id := none, success := false }) := by
  refine ⟨?_, ?_, ?_⟩
  · intro hs
    simp [register_user_and_get_api_token, hs]
  · intro hr
    cases hs : env.serverOk <;>
      simp [register_user_and_get_api_token, hs, hr]
  · intro ui hs hr ht
    simp [register_user_and_get_api_token, hs, hr, ht]

theorem C3_witness :
    ((register_user_and_get_api_token ⟨false, none, none⟩).1 = none ∧
     RegStep.register ∉ (register_user_and_get_api_token ⟨false, none, none⟩).2 ∧
     RegStep.token ∉ (register_user_and_get_api_token ⟨false, none, none⟩).2) ∧
    ((register_user_and_get_api_token ⟨true, none, none⟩).1 = none ∧
     RegStep.token ∉ (register_user_and_get_api_token ⟨true, none, none⟩).2) ∧
    (register_user_and_get_api_token
        ⟨true, some ⟨"u1", "n", "e", 0, "t"⟩, none⟩).1 =
      some { user := ⟨"u1", "n", "e", 0, "t"⟩, api_token := none,
             message := some tokenFailMsg, tenant_id := none,
             success := false } :=
  ⟨(C3_register_flow_gating ⟨false, none, none⟩).1 rfl,
   (C3_register_flow_gating ⟨true, none, none⟩).2.1 rfl,
   (C3_register_flow_gating ⟨true, some ⟨"u1", "n", "e", 0, "t"⟩, none⟩).2.2
     ⟨"u1", "n", "e", 0, "t"⟩ rfl rfl rfl⟩

/-- C4: `_rollback_user_registration` makes exactly the four delete attempts
in source order, and each table's final content depends only on that table's
own fault flag — so when any one sub-delete fails, the other three still
execute. -/
theorem C4_rollback_independent (f : Faults) (uid : String) (db : DBState) :
    (rollback_user_registration f uid db).2 =
      [SubDelete.user, SubDelete.tenant, SubDelete.userTenant,
       SubDelete.tenantLLM] ∧
    (rollback_user_registration f uid db).1.users =
      (if f.fUser then db.users
       else db.users.filter (fun u => u.id != uid)) ∧
    (rollback_user_registration f uid db).1.tenants =
      (if f.fTenant then db.tenants
       else db.tenants.filter (fun t => t.id != uid)) ∧
    (rollback_user_registration f uid db).1.user_tenants =
      (if f.fUserTenant then db.user_tenants
       else deleteFirstMembership uid db.user_tenants) ∧
    (rollback_user_registration f uid db).1.tenant_llms =
      (if f.fTenantLLM then db.tenant_llms
       else db.tenant_llms.filter (fun m => m.tenant_id != uid)) := by
  obtain ⟨fu, ft, fut, fl⟩ := f
  cases fu <;> cases ft <;> cases fut <;> cases fl <;>
    simp [rollback_user_registration]

/-- Helper: when the database is initialized, the user row exists and no
confirmation is requested, `delete_user` is the rollback followed by the two
existence re-queries. -/
theorem delete_user_eq (f : Faults) (uid : String) (db : DBState)
    (hu : (db.users.find? (fun u => u.id == uid)).isSome) :
    delete_user true f false "" uid db =
      (!(rollback_user_registration f uid db).1.users.any (fun u => u.id == uid) &&
       !(rollback_user_registration f uid db).1.tenants.any (fun t => t.id == uid),
       (rollback_user_registration f uid db).1,
       (rollback_user_registration f uid db).2) := by
  obtain ⟨u, hu'⟩ := Option.isSome_iff_exists.mp hu
  simp [delete_user, get_user_details, hu']

/-- Helper: a row surviving `filter (key · != uid)` never satisfies
`key · == uid`. -/
theorem any_key_filter {α : Type} (l : List α) (key : α → String) (uid : String) :
    (l.filter (fun x => key x != uid)).any (fun x => key x == uid) = false := by
  simp only [List.any_eq_false, List.mem_filter, bne_iff_ne, beq_iff_eq]
  intro x hx
  exact hx.2

/-- C5: for an existing account identifier (confirmation not requested), when
all four sub-deletes succeed the re-queries find neither the account row nor
the unit row and `delete_user` returns `true`; and for any fault pattern,
if either row still exists after the sub-deletes, `delete_user` returns
`false`. -/
theorem C5_delete_user_postcondition (db : DBState) (uid : String)
    (hu : (db.users.find? (fun u => u.id == uid)).isSome) :
    ((delete_user true ⟨false, false, false, false⟩ false "" uid db).1 = true ∧
     (delete_user true ⟨false, false, false, false⟩ false "" uid db).2.1.users.any
        (fun u => u.id == uid) = false ∧
     (delete_user true ⟨false, false, false, false⟩ false "" uid db).2.1.tenants.any
        (fun t => t.id == uid) = false) ∧
    (∀ f : Faults,
      ((delete_user true f false "" uid db).2.1.users.any
          (fun u => u.id == uid) = true ∨
       (delete_user true f false "" uid db).2.1.tenants.any
          (fun t => t.id == uid) = true) →
      (delete_user true f false "" uid db).1 = false) := by
  constructor
  · rw [delete_user_eq ⟨false, false, false, false⟩ uid db hu]
    simp only [rollback_user_registration]
    simp [any_key_filter]
  · intro f hex
    rw [delete_user_eq f uid db hu] at hex ⊢
    rcases hex with hx | hx <;> simp_all

theorem C5_witness :
    ((delete_user true ⟨false, false, false, false⟩ false ""
        "u1" ⟨[⟨"u1", "n", "e", "1", false, "pw", 0, 0, 0⟩],
              [⟨"u1", "t", "l", "em"⟩],
              [⟨"ut1", "u1", "u1", "owner", "u1"⟩],
              [⟨"u1", "m"⟩]⟩).1 = true ∧
     (delete_user true ⟨false, false, false, false⟩ false ""
        "u1" ⟨[⟨"u1", "n", "e", "1", false, "pw", 0, 0, 0⟩],
              [⟨"u1", "t", "l", "em"⟩],
              [⟨"ut1", "u1", "u1", "owner", "u1"⟩],
              [⟨"u1", "m"⟩]⟩).2.1.users.any (fun u => u.id == "u1") = false ∧
     (delete_user true ⟨false, false, false, false⟩ false ""
        "u1" ⟨[⟨"u1", "n", "e", "1", false, "pw", 0, 0, 0⟩],
              [⟨"u1", "t", "l", "em"⟩],
              [⟨"ut1", "u1", "u1", "owner", "u1"⟩],
              [⟨"u1", "m"⟩]⟩).2.1.tenants.any (fun t => t.id == "u1") = false) ∧
    (∀ f : Faults,
      ((delete_user true f false ""
          "u1" ⟨[⟨"u1", "n", "e", "1", false, "pw", 0, 0, 0⟩],
                [⟨"u1", "t", "l", "em"⟩],
                [⟨"ut1", "u1", "u1", "owner", "u1"⟩],
                [⟨"u1", "m"⟩]⟩).2.1.users.any (fun u => u.id == "u1") = true ∨
       (delete_user true f false ""
          "u1" ⟨[⟨"u1", "n", "e", "1", false, "pw", 0, 0, 0⟩],
                [⟨"u1", "t", "l", "em"⟩],
                [⟨"ut1", "u1", "u1", "owner", "u1"⟩],
                [⟨"u1", "m"⟩]⟩).2.1.tenants.any (fun t => t.id == "u1") = true) →
      (delete_user true f false ""
          "u1" ⟨[⟨"u1", "n", "e", "1", false, "pw", 0, 0, 0⟩],
                [⟨"u1", "t", "l", "em"⟩],
                [⟨"ut1", "u1", "u1", "owner", "u1"⟩],
                [⟨"u1", "m"⟩]⟩).1 = false) :=
  C5_delete_user_postcondition
    ⟨[⟨"u1", "n", "e", "1", false, "pw", 0, 0, 0⟩],
     [⟨"u1", "t", "l", "em"⟩],
     [⟨"ut1", "u1", "u1", "owner", "u1"⟩],
     [⟨"u1", "m"⟩]⟩ "u1" (by decide)

/-- C9: requesting details for an identifier with no matching account row
(on an initialized database) reports "not found" and returns `none`; the
function is total, so no exception escapes. -/
theorem C9_get_user_details_not_found (db : DBState) (uid : String)
    (h : ∀ u ∈ db.users, u.id ≠ uid) :
    get_user_details true db uid = (none, true) := by
  have hf : db.users.find? (fun u => u.id == uid) = none := by
    rw [List.find?_eq_none]
    intro u hu
    simpa using h u hu
  simp [get_user_details, hf]

theorem C9_witness :
    get_user_details true
      ⟨[⟨"u1", "n", "e", "1", false, "pw", 0, 0, 0⟩], [], [], []⟩
      "missing" = (none, true) :=
  C9_get_user_details_not_found
    ⟨[⟨"u1", "n", "e", "1", false, "pw", 0, 0, 0⟩], [], [], []⟩
    "missing" (by decide)

/-- C10 counterexample: the raw input `" DELETE "` is not the exact string
`DELETE`, yet `delete_user` strips it (line 331), runs all four sub-deletes
on an existing user, empties the tables and returns `true` — so the
universal "no sub-delete executes and rows are unchanged" guarantee for
non-`DELETE` inputs is false as stated. -/
theorem C10_counterexample :
    delete_user true ⟨false, false, false, false⟩ true " DELETE " "u1"
      ⟨[⟨"u1", "n", "e", "1", false, "pw", 0, 0, 0⟩],
        [⟨"u1", "t", "l", "em"⟩], [], []⟩ =
      (true, ⟨[], [], [], []⟩,
       [SubDelete.user, SubDelete.tenant, SubDelete.userTenant,
        SubDelete.tenantLLM]) := by
  decide

/-- C10 (amended): with confirmation enabled and an input whose
`.strip()`-ed value is anything other than the literal string `DELETE`, or
with no matching account row, `delete_user` returns `false`, attempts no
sub-delete and leaves the database unchanged. -/
theorem C10_delete_user_guards (db : DBState) (uid : String) (f : Faults)
    (confirmInput : String) :
    ((∀ u ∈ db.users, u.id ≠ uid) →
      delete_user true f true confirmInput uid db = (false, db, [])) ∧
    (pyStrip confirmInput ≠ "DELETE" →
      delete_user true f true confirmInput uid db = (false, db, [])) := by
  constructor
  · intro h
    have hf : db.users.find? (fun u => u.id == uid) = none := by
      rw [List.find?_eq_none]
      intro u hu
      simpa using h u hu
    simp [delete_user, get_user_details, hf]
  · intro h
    cases hf : db.users.find? (fun u => u.id == uid) with
    | none => simp [delete_user, get_user_details, hf]
    | some u => simp [delete_user, get_user_details, hf, h]

theorem C10_witness :
    (delete_user true ⟨false, false, false, false⟩ true "DELETE" "missing"
       ⟨[⟨"u1", "n", "e", "1", false, "pw", 0, 0, 0⟩], [], [], []⟩ =
      (false, ⟨[⟨"u1", "n", "e", "1", false, "pw", 0, 0, 0⟩], [], [], []⟩, [])) ∧
    (delete_user true ⟨false, false, false, false⟩ true "yes" "u1"
       ⟨[⟨"u1", "n", "e", "1", false, "pw", 0, 0, 0⟩], [], [], []⟩ =
      (false, ⟨[⟨"u1", "n", "e", "1", false, "pw", 0, 0, 0⟩], [], [], []⟩, [])) :=
  ⟨(C10_delete_user_guards
      ⟨[⟨"u1", "n", "e", "1", false, "pw", 0, 0, 0⟩], [], [], []⟩
      "missing" ⟨false, false, false, false⟩ "DELETE").1 (by decide),
   (C10_delete_user_guards
      ⟨[⟨"u1", "n", "e", "1", false, "pw", 0, 0, 0⟩], [], [], []⟩
      "u1" ⟨false, false, false, false⟩ "yes").2 (by decide)⟩

/-- C6 counterexample: with the base URL absent, construction does not fail —
`base_url` has the default `http://localhost:9380` — so "construction fails
if either is absent" is false as stated. -/
theorem C6_counterexample :
    RAGFlowSDKClient_init none (some "ragflow-token") ≠ none ∧
    RAGFlowSDKClient_init none (some "ragflow-token") =
      some { base_url := "http://localhost:9380",
             api_token := "ragflow-token" } := by
  constructor
  · simp [RAGFlowSDKClient_init]
  · decide

/-- C6 (amended): construction fails exactly when the bearer token is absent
or empty; the base URL is optional and defaults to `http://localhost:9380`
when absent. -/
theorem C6_init_token_required (base_url api_token : Option String) :
    (RAGFlowSDKClient_init base_url api_token = none ↔
       api_token.getD "" = "") ∧
    (base_url = none → api_token.getD "" ≠ "" →
      RAGFlowSDKClient_init base_url api_token =
        some { base_url := rstripSlashes "http://localhost:9380",
               api_token := api_token.getD "" }) := by
  constructor
  · unfold RAGFlowSDKClient_init
    split_ifs with h <;> simp [h]
  · intro hb ht
    subst hb
    unfold RAGFlowSDKClient_init
    rw [if_neg ht]
    rfl

theorem C6_init_token_required_witness :
    RAGFlowSDKClient_init none (some "tok") =
      some { base_url := rstripSlashes "http://localhost:9380",
             api_token := "tok" } :=
  (C6_init_token_required none (some "tok")).2 rfl (by decide)

/-- C7: `list_datasets` forwards `page`/`page_size` (and `name`) unchanged to
the remote client and returns an empty list — never a null — when the remote
call yields an empty result; `list_users` returns `[]` on an empty `User`
table and on an uninitialized database. -/
theorem C7_listing_pass_through :
    (∀ (remote : Nat → Nat → Option String → Except String (List String))
       (page page_size : Nat) (name : Option String),
       list_datasets remote page page_size name = remote page page_size name) ∧
    (∀ (remote : Nat → Nat → Option String → Except String (List String))
       (page page_size : Nat) (name : Option String),
       remote page page_size name = Except.ok [] →
       list_datasets remote page page_size name = Except.ok []) ∧
    (∀ db : DBState, db.users = [] → list_users true db = []) ∧
    (∀ db : DBState, list_users false db = []) := by
  refine ⟨?_, ?_, ?_, ?_⟩
  · intro remote page page_size name
    cases h : remote page page_size name <;> simp [list_datasets, h]
  · intro remote page page_size name h
    simp [list_datasets, h]
  · intro db h
    simp [list_users, h]
  · intro db
    simp [list_users]

theorem C7_witness :
    list_datasets (fun _ _ _ => Except.ok []) 2 50 none = Except.ok [] ∧
    list_users true ⟨[], [], [], []⟩ = [] :=
  ⟨C7_listing_pass_through.2.1 (fun _ _ _ => Except.ok []) 2 50 none rfl,
   C7_listing_pass_through.2.2.1 ⟨[], [], [], []⟩ rfl⟩

/-- Helper: a result the registration flow returns with `success` set carries
an organizational-unit identifier equal to the account identifier. -/
theorem regResult_success_shape (env : RegEnv) (r : RegResult)
    (h : (register_user_and_get_api_token env).1 = some r)
    (hs : r.success = true) :
    r.tenant_id = some r.user.id := by
  obtain ⟨so, rr, tr⟩ := env
  cases so with
  | false => simp [register_user_and_get_api_token] at h
  | true =>
      cases rr with
      | none => simp [register_user_and_get_api_token] at h
      | some ui =>
          cases tr with
          | none =>
              simp only [register_user_and_get_api_token] at h
              injection h with h2
              subst h2
              simp at hs
          | some tok =>
              simp only [register_user_and_get_api_token] at h
              injection h with h2
              subst h2
              rfl

/-- C8: whenever `create_test_user` writes a file, that file is named
`ragflow_user_<suffix>.json`, contains the full registration result, its
token field is the API-token value printed to the console, and its
organizational-unit identifier equals the account identifier. -/
theorem C8_create_test_user_file (env : RegEnv) (suffix : String)
    (fw : FileWrite) (hfw : fw ∈ (create_test_user env suffix).2.1) :
    fw.fname = "ragflow_user_" ++ suffix ++ ".json" ∧
    (create_test_user env suffix).1 = some fw.content ∧
    fw.content.api_token ∈ (create_test_user env suffix).2.2 ∧
    fw.content.tenant_id = some fw.content.user.id := by
  unfold create_test_user at hfw ⊢
  cases hres : (register_user_and_get_api_token env).1 with
  | none =>
      rw [hres] at hfw
      simp at hfw
  | some r =>
      rw [hres] at hfw
      dsimp only at hfw ⊢
      by_cases hs : r.success = true
      · rw [if_pos hs] at hfw
        rw [if_pos hs]
        simp only [List.mem_singleton] at hfw
        subst hfw
        exact ⟨rfl, rfl, by simp, regResult_success_shape env r hres hs⟩
      · rw [if_neg hs] at hfw
        simp at hfw

theorem C8_witness :
    (FileWrite.mk "ragflow_user_abc.json"
        { user := ⟨"u1", "n", "e", 0, "at"⟩, api_token := some "tok",
          message := none, tenant_id := some "u1", success := true }).fname =
      "ragflow_user_" ++ "abc" ++ ".json" ∧
    (create_test_user ⟨true, some ⟨"u1", "n", "e", 0, "at"⟩, some "tok"⟩ "abc").1 =
      some (FileWrite.mk "ragflow_user_abc.json"
        { user := ⟨"u1", "n", "e", 0, "at"⟩, api_token := some "tok",
          message := none, tenant_id := some "u1", success := true }).content ∧
    (FileWrite.mk "ragflow_user_abc.json"
        { user := ⟨"u1", "n", "e", 0, "at"⟩, api_token := some "tok",
          message := none, tenant_id := some "u1", success := true }).content.api_token ∈
      (create_test_user ⟨true, some ⟨"u1", "n", "e", 0, "at"⟩, some "tok"⟩ "abc").2.2 ∧
    (FileWrite.mk "ragflow_user_abc.json"
        { user := ⟨"u1", "n", "e", 0, "at"⟩, api_token := some "tok",
          message := none, tenant_id := some "u1", success := true }).content.tenant_id =
      some (FileWrite.mk "ragflow_user_abc.json"
        { user := ⟨"u1", "n", "e", 0, "at"⟩, api_token := some "tok",
          message := none, tenant_id := some "u1", success := true }).content.user.id :=
  C8_create_test_user_file ⟨true, some ⟨"u1", "n", "e", 0, "at"⟩, some "tok"⟩ "abc"
    (FileWrite.mk "ragflow_user_abc.json"
      { user := ⟨"u1", "n", "e", 0, "at"⟩, api_token := some "tok",
        message := none, tenant_id := some "u1", success := true })
    (by decide)

end RagflowSecDev
